import Mathlib

/-!
Shallow embedding of the booking concurrency core of the
Airline-Booking-System repository (Go), for checking its natural-language
specification.

Conventions of the embedding:
- Go `int` / `int64` fields are modelled as `Int` (no overflow is relevant
  to the properties below; the one narrowing conversion that matters,
  `rune(FlightID)` in `GetLockKey`, is modelled explicitly as a wrap to
  the `int32` range).
- Go `float64` prices are modelled as `Rat`; no property below depends on
  floating-point rounding.
- `time.Time` columns (`timestamp`, `created_at`, `updated_at`) are
  omitted: no property mentions them.
- Fallible Go calls returning `(T, error)` are modelled as
  `Except String T`.
- A SQL table keyed by its primary-key id column is modelled as a function
  `Int → Option <row>`; a conditional UPDATE touching the single row with
  the given id is modelled as an update of that function.
- External collaborators of `BookingService.CreateBooking` (database reads
  and writes, the Redis lock, Kafka) are modelled by an oracle record that
  fixes the outcome of each call, and the service is a pure function from
  the request and the oracle to its Go return value plus the ordered trace
  of external effects it performed.
-/

namespace AirlineBooking

/-! ## Data model (internal/models, from config.go part and booking.go) -/

/-- Go `models.FlightStatus` is a string type; these are its constants. -/
def flightStatusScheduled : String := "scheduled"

def flightStatusOnTime : String := "on_time"

def flightStatusDelayed : String := "delayed"

def flightStatusDeparted : String := "departed"

def flightStatusCancelled : String := "cancelled"

/-- Go `models.BookingStatus` string constants. -/
def bookingStatusPending : String := "pending"

def bookingStatusCompleted : String := "completed"

def bookingStatusFailed : String := "failed"

def bookingStatusCancelled : String := "cancelled"

/-- Go `models.Flight` (time fields omitted, see module comment). -/
structure Flight where
  id : Int
  source : String
  destination : String
  availableSeats : Int
  totalSeats : Int
  flightStatus : String
  price : Rat
  version : Int
  deriving Repr, DecidableEq

/-- Go `models.PassengerDetails`. -/
structure PassengerDetails where
  name : String
  email : String
  phone : String
  age : Int
  gender : String
  deriving Repr, DecidableEq

/-- Go `models.Booking` (time fields omitted). -/
structure Booking where
  id : Int
  flightID : Int
  userID : Int
  status : String
  paymentReferenceID : String
  bookingPrice : Rat
  seatsBooked : Int
  bookingMetadata : List PassengerDetails
  deriving Repr, DecidableEq

/-- Go `models.BookingRequest`. -/
structure BookingRequest where
  flightID : Int
  userID : Int
  seatsBooked : Int
  passengerDetails : List PassengerDetails
  deriving Repr, DecidableEq

/-- Go `models.BookingResponse`. -/
structure BookingResponse where
  bookingID : Int
  status : String
  paymentReferenceID : String
  message : String
  deriving Repr, DecidableEq

/-- Go `models.SeatUpdateEvent` (timestamp omitted). -/
structure SeatUpdateEvent where
  flightID : Int
  seatsBooked : Int
  bookingID : Int
  deriving Repr, DecidableEq

/-- Go `models.PaymentEvent` (timestamp omitted). -/
structure PaymentEvent where
  bookingID : Int
  paymentReferenceID : String
  amount : Rat
  status : String
  deriving Repr, DecidableEq

/-- Go `BookingRequest.IsValid`:
`br.FlightID > 0 && br.UserID > 0 && br.SeatsBooked > 0 && len(br.PassengerDetails) > 0`. -/
def BookingRequest.isValid (br : BookingRequest) : Bool :=
  (0 < br.flightID) && (0 < br.userID) && (0 < br.seatsBooked) &&
    (0 < br.passengerDetails.length)

/-! ## Lock-key derivation (models/booking.go, GetLockKey)

Go: `return "flight_lock:" + string(rune(br.FlightID))`.
The conversion `rune(br.FlightID)` truncates the `int64` to the `int32`
range (two's complement); Go's integer-to-string conversion then yields
the one-character UTF-8 string of that code point if it is a valid
Unicode scalar value, and the replacement character U+FFFD otherwise
(negative values, surrogate halves, values above 0x10FFFF). -/

/-- Two's-complement truncation of an `int64` value to the `int32` range,
as performed by Go's conversion `rune(x)`. -/
def goInt32 (n : Int) : Int :=
  (n + 2 ^ 31) % 2 ^ 32 - 2 ^ 31

/-- Go conversion of an integer code-point value to a string: a valid
Unicode scalar value encodes itself, everything else becomes U+FFFD. -/
def goStringOfRune (r : Int) : String :=
  if (0 ≤ r ∧ r < 0xD800) ∨ (0xDFFF < r ∧ r ≤ 0x10FFFF) then
    String.mk [Char.ofNat r.toNat]
  else
    String.mk [Char.ofNat 0xFFFD]

/-- Go `BookingRequest.GetLockKey`. -/
def BookingRequest.getLockKey (br : BookingRequest) : String :=
  "flight_lock:" ++ goStringOfRune (goInt32 br.flightID)

/-! ## Flight repository (internal/repositories/flight_repository.go) -/

/-- Result of the row-level part of the conditional UPDATE in
`FlightRepository.UpdateAvailableSeats`: the row with the matching id is
changed iff `version = $4 AND available_seats >= $1`; the SET clause is
`available_seats = available_seats - $1, version = version + 1`. Returns
`none` when the WHERE condition rejects the row. -/
def updateAvailableSeatsRow (f : Flight) (seatsToBook version : Int) :
    Option Flight :=
  if f.version = version ∧ seatsToBook ≤ f.availableSeats then
    some { f with
      availableSeats := f.availableSeats - seatsToBook
      version := f.version + 1 }
  else
    none

/-- A flights table keyed by the id column. -/
def FlightTable : Type := Int → Option Flight

/-- Go `FlightRepository.UpdateAvailableSeats`: executes the conditional
UPDATE and returns the error
"optimistic lock failed or insufficient seats" when zero rows were
affected (id absent, version mismatch, or insufficient seats — the SQL
does not distinguish); otherwise the updated table. The database itself
is assumed reachable (an `ExecContext` transport failure is outside the
model). -/
def updateAvailableSeats (t : FlightTable) (flightID seatsToBook version : Int) :
    Except String FlightTable :=
  match t flightID with
  | none => .error "optimistic lock failed or insufficient seats"
  | some f =>
    match updateAvailableSeatsRow f seatsToBook version with
    | none => .error "optimistic lock failed or insufficient seats"
    | some g => .ok (fun j => if j = flightID then some g else t j)

/-! ## Flight service (internal/services, FlightService) -/

/-- Go `FlightService.CreateFlight` composed with the repository INSERT:
validates the supplied flight, defaults an empty status to
`scheduled`, forces `Version = 1`, and returns the stored row (the
DB-assigned id is immaterial to the properties below and is kept as
given). -/
def createFlightService (flight : Flight) : Except String Flight :=
  if flight.source = "" ∨ flight.destination = "" ∨ flight.availableSeats ≤ 0 ∨
      flight.totalSeats ≤ 0 ∨ flight.price ≤ 0 then
    .error "invalid flight data"
  else if flight.totalSeats < flight.availableSeats then
    .error "available seats cannot exceed total seats"
  else if flight.source = flight.destination then
    .error "source and destination cannot be the same"
  else
    let f1 := if flight.flightStatus = "" then
        { flight with flightStatus := flightStatusScheduled }
      else flight
    .ok { f1 with version := 1 }

/-- Go `FlightService.UpdateFlight` composed with the row-level part of
`FlightRepository.UpdateFlight` applied to the stored row: service
validation of the supplied flight, then the conditional UPDATE
(WHERE id AND version match; SET all supplied columns and
`version = version + 1`). The id column itself is not in the SET list. -/
def updateFlightService (stored flight : Flight) : Except String Flight :=
  if flight.source = "" ∨ flight.destination = "" ∨ flight.totalSeats ≤ 0 ∨
      flight.price ≤ 0 then
    .error "invalid flight data"
  else if flight.totalSeats < flight.availableSeats then
    .error "available seats cannot exceed total seats"
  else if flight.source = flight.destination then
    .error "source and destination cannot be the same"
  else if stored.id = flight.id ∧ stored.version = flight.version then
    .ok { flight with id := stored.id, version := stored.version + 1 }
  else
    .error "flight not found or version conflict"

/-! ## Reachable flight states (for the inventory invariant)

A single flight row's lifecycle through the public mutation operations:
created by `FlightService.CreateFlight`, then mutated by
`FlightService.UpdateFlight` or `FlightRepository.UpdateAvailableSeats`. -/

/-- Flight states reachable through the public mutation operations,
starting from a validly created flight. -/
inductive ReachableFlight : Flight → Prop
  | create (f g : Flight) :
      createFlightService f = .ok g → ReachableFlight g
  | updateSeats (f g : Flight) (qty ver : Int) :
      ReachableFlight f → updateAvailableSeatsRow f qty ver = some g →
      ReachableFlight g
  | update (f new g : Flight) :
      ReachableFlight f → updateFlightService f new = .ok g →
      ReachableFlight g

/-- Flight states reachable when, additionally, every seat-decrement call
supplies a non-negative quantity and every UpdateFlight call supplies a
non-negative available-seat count (the checks the code itself does not
perform). -/
inductive ReachableFlightChecked : Flight → Prop
  | create (f g : Flight) :
      createFlightService f = .ok g → ReachableFlightChecked g
  | updateSeats (f g : Flight) (qty ver : Int) :
      ReachableFlightChecked f → 0 ≤ qty →
      updateAvailableSeatsRow f qty ver = some g →
      ReachableFlightChecked g
  | update (f new g : Flight) :
      ReachableFlightChecked f → 0 ≤ new.availableSeats →
      updateFlightService f new = .ok g →
      ReachableFlightChecked g

/-! ## Booking repository (internal/repositories/booking_repository.go) -/

/-- A stored bookings-table row. The `payment_reference_id` column is
nullable: `UpdateBookingStatus` writes SQL NULL when the Go caller passes
a nil pointer, so the column is an `Option String` here. -/
structure BookingRow where
  id : Int
  flightID : Int
  userID : Int
  status : String
  paymentReferenceID : Option String
  bookingPrice : Rat
  seatsBooked : Int
  bookingMetadata : List PassengerDetails
  deriving Repr, DecidableEq

/-- A bookings table keyed by the id column. -/
def BookingTable : Type := Int → Option BookingRow

/-- Go `BookingRepository.UpdateBookingStatus`: the UPDATE
`SET status = $1, payment_reference_id = $2, updated_at = $3 WHERE id = $4`
unconditionally overwrites the status and payment-reference columns of
the row with the given id; zero affected rows (id absent) yields the
error "booking not found". -/
def updateBookingStatus (t : BookingTable) (bookingID : Int) (status : String)
    (paymentRefID : Option String) : Except String BookingTable :=
  match t bookingID with
  | none => .error "booking not found"
  | some b =>
    .ok (fun j =>
      if j = bookingID then
        some { b with status := status, paymentReferenceID := paymentRefID }
      else t j)

/-! ## Payment reference generation (booking_service.go) -/

/-- Lowercase hexadecimal digit character for a value below 16, as
produced by Go's percent-x formatting. -/
def hexDigitChar (n : Nat) : Char :=
  if n < 10 then Char.ofNat (48 + n) else Char.ofNat (87 + n)

/-- Two-digit lowercase hexadecimal rendering of one byte. -/
def byteHex (b : Nat) : String :=
  String.mk [hexDigitChar (b / 16 % 16), hexDigitChar (b % 16)]

/-- Go `generatePaymentReferenceID`: formats 16 random bytes as
"PAY-" followed by their lowercase hex. The random bytes themselves come
from the oracle (crypto/rand). -/
def generatePaymentReferenceID (bytes : List Nat) : String :=
  "PAY-" ++ String.join (bytes.map byteHex)

/-! ## Booking service (internal/services/booking_service.go) -/

/-- One observable call to an external collaborator made by
`BookingService.CreateBooking` or `processPaymentAsync`, in execution
order. -/
inductive Effect
  | getFlight (flightID : Int)
  | acquireLock (key : String)
  | releaseLock (key : String)
  | createBooking (booking : Booking)
  | updateAvailableSeats (flightID : Int) (seatsToBook : Int) (version : Int)
  | updateBookingStatus (bookingID : Int) (status : String)
      (paymentRefID : Option String)
  | deleteCachedSeats (flightID : Int)
  | dispatchPayment (bookingID : Int) (paymentRefID : String) (amount : Rat)
  | sendSeatUpdateEvent (event : SeatUpdateEvent)
  | sendPaymentEvent (event : PaymentEvent)
  deriving Repr, DecidableEq

/-- Outcomes of the external calls `BookingService.CreateBooking` may
perform, fixed up front: the two flight reads, the lock acquisition, the
booking INSERT (returning the assigned id), the conditional seat
decrement, and the 16 random bytes behind the payment reference.
Lock release, cache invalidation and the ignored status write on the
conflict path have their results discarded by the code, so they need no
oracle entry. -/
structure BookingOracle where
  getFlight1 : Except String Flight
  acquireLock : Except String Bool
  getFlight2 : Except String Flight
  createBooking : Except String Int
  updateSeats : Except String Unit
  randBytes : List Nat

/-- The Booking record CreateBooking constructs before the INSERT: the
requested flight/user/seats and passenger payload, status Pending, the
price computed from the flight read under the lock, and no payment
reference (the id is assigned by the INSERT). -/
def pendingBookingOf (req : BookingRequest) (flight2 : Flight) : Booking :=
  { id := 0, flightID := req.flightID, userID := req.userID,
    status := bookingStatusPending, paymentReferenceID := "",
    bookingPrice := flight2.price * (req.seatsBooked : Rat),
    seatsBooked := req.seatsBooked,
    bookingMetadata := req.passengerDetails }

/-- Go `BookingService.CreateBooking`: the full reservation protocol as a
pure function of the request and the oracle, returning the Go return
value (`(*BookingResponse, error)`) and the ordered trace of external
effects. The deferred lock release registered after a successful
acquisition runs last on every subsequent path, matching Go defer
semantics. -/
def createBookingService (req : BookingRequest) (o : BookingOracle) :
    Except String BookingResponse × List Effect :=
  if req.isValid = false then
    (.error "invalid booking request", [])
  else
    match o.getFlight1 with
    | .error e => (.error ("failed to get flight: " ++ e), [.getFlight req.flightID])
    | .ok flight =>
      if flight.availableSeats < req.seatsBooked then
        (.ok { bookingID := 0, status := bookingStatusFailed,
               paymentReferenceID := "",
               message := "Insufficient seats available" },
         [.getFlight req.flightID])
      else if flight.flightStatus = flightStatusCancelled ∨
          flight.flightStatus = flightStatusDeparted then
        (.ok { bookingID := 0, status := bookingStatusFailed,
               paymentReferenceID := "",
               message := "Flight is not available for booking" },
         [.getFlight req.flightID])
      else
        let lockKey := req.getLockKey
        match o.acquireLock with
        | .error e =>
          (.error ("failed to acquire lock: " ++ e),
           [.getFlight req.flightID, .acquireLock lockKey])
        | .ok false =>
          (.ok { bookingID := 0, status := bookingStatusFailed,
                 paymentReferenceID := "",
                 message := "Flight is currently being booked by another user" },
           [.getFlight req.flightID, .acquireLock lockKey])
        | .ok true =>
          let pre : List Effect := [.getFlight req.flightID, .acquireLock lockKey]
          match o.getFlight2 with
          | .error e =>
            (.error ("failed to get flight after lock: " ++ e),
             pre ++ [.getFlight req.flightID, .releaseLock lockKey])
          | .ok flight2 =>
            if flight2.availableSeats < req.seatsBooked then
              (.ok { bookingID := 0, status := bookingStatusFailed,
                     paymentReferenceID := "",
                     message := "Seats no longer available" },
               pre ++ [.getFlight req.flightID, .releaseLock lockKey])
            else
              let bookingPrice := flight2.price * (req.seatsBooked : Rat)
              let booking : Booking := pendingBookingOf req flight2
              match o.createBooking with
              | .error e =>
                (.error ("failed to create booking: " ++ e),
                 pre ++ [.getFlight req.flightID, .createBooking booking,
                         .releaseLock lockKey])
              | .ok bid =>
                match o.updateSeats with
                | .error _ =>
                  (.ok { bookingID := bid, status := bookingStatusFailed,
                         paymentReferenceID := "",
                         message := "Failed to reserve seats" },
                   pre ++ [.getFlight req.flightID, .createBooking booking,
                           .updateAvailableSeats req.flightID req.seatsBooked
                             flight2.version,
                           .updateBookingStatus bid bookingStatusFailed none,
                           .releaseLock lockKey])
                | .ok _ =>
                  let paymentRefID := generatePaymentReferenceID o.randBytes
                  (.ok { bookingID := bid, status := bookingStatusPending,
                         paymentReferenceID := paymentRefID,
                         message := "Booking created, processing payment" },
                   pre ++ [.getFlight req.flightID, .createBooking booking,
                           .updateAvailableSeats req.flightID req.seatsBooked
                             flight2.version,
                           .deleteCachedSeats req.flightID,
                           .dispatchPayment bid paymentRefID bookingPrice,
                           .releaseLock lockKey])

/-- Go `BookingService.processPaymentAsync`: the settlement worker as a
pure function of the dispatched task, the payment-policy outcome and the
result of the booking-status write, returning the ordered trace of
external effects it performs. -/
def processPaymentAsync (bookingID : Int) (paymentRefID : String) (amount : Rat)
    (paymentSuccessful : Bool) (updateStatusResult : Except String Unit) :
    List Effect :=
  let newStatus :=
    if paymentSuccessful then bookingStatusCompleted else bookingStatusFailed
  let seatEvents : List Effect :=
    if paymentSuccessful then
      [.sendSeatUpdateEvent
        { flightID := 0, seatsBooked := 0, bookingID := bookingID }]
    else []
  let statusWrite : List Effect :=
    [.updateBookingStatus bookingID newStatus (some paymentRefID)]
  match updateStatusResult with
  | .error _ => seatEvents ++ statusWrite
  | .ok _ =>
    seatEvents ++ statusWrite ++
      [.sendPaymentEvent
        { bookingID := bookingID, paymentReferenceID := paymentRefID,
          amount := amount, status := newStatus }]

/-! ## Concrete inputs used by witnesses and counterexamples -/

/-- Passenger record used by the concrete booking runs below. -/
def paxJohn : PassengerDetails :=
  { name := "John", email := "john@example.com", phone := "999",
    age := 30, gender := "M" }

/-- Scenario-A flight: 150 of 180 seats available, version 1. -/
def flightScenarioA : Flight :=
  { id := 1, source := "Delhi", destination := "Mumbai",
    availableSeats := 150, totalSeats := 180,
    flightStatus := flightStatusScheduled, price := 2500, version := 1 }

/-- Flights table holding only the scenario-A flight under id 1. -/
def flightTableA : FlightTable :=
  fun j => if j = 1 then some flightScenarioA else none

/-- Flight supplied to CreateFlight at the start of the C2
counterexample run. -/
def flightSeedC2 : Flight :=
  { id := 3, source := "Delhi", destination := "Bangalore",
    availableSeats := 5, totalSeats := 10,
    flightStatus := flightStatusScheduled, price := 3200, version := 7 }

/-- UpdateFlight payload carrying a negative available-seat count,
matching the stored id 3 and version 1. -/
def flightNegativeUpdateC2 : Flight :=
  { id := 3, source := "Delhi", destination := "Bangalore",
    availableSeats := -1, totalSeats := 10,
    flightStatus := flightStatusScheduled, price := 3200, version := 1 }

/-- The stored state after the negative UpdateFlight: -1 available
seats. -/
def flightBadC2 : Flight :=
  { flightNegativeUpdateC2 with version := 2 }

/-- Concrete booking request: 2 seats on flight 1 for user 123. -/
def reqLockC3 : BookingRequest :=
  { flightID := 1, userID := 123, seatsBooked := 2,
    passengerDetails := [paxJohn] }

/-- Oracle for a fully successful concrete run of CreateBooking. -/
def oracleLockC3 : BookingOracle :=
  { getFlight1 := Except.ok flightScenarioA,
    acquireLock := Except.ok true,
    getFlight2 := Except.ok flightScenarioA,
    createBooking := Except.ok 1,
    updateSeats := Except.ok (),
    randBytes := List.replicate 16 0 }

/-- Concrete booking request used by the C4 runs. -/
def reqRecheckC4 : BookingRequest :=
  { flightID := 1, userID := 2, seatsBooked := 1,
    passengerDetails := [paxJohn] }

/-- Flight state the unlocked pre-check sees: bookable, plenty of
seats. -/
def flightOkC4 : Flight :=
  { id := 1, source := "Delhi", destination := "Mumbai",
    availableSeats := 10, totalSeats := 10,
    flightStatus := flightStatusScheduled, price := 100, version := 1 }

/-- Flight state the locked re-read sees: same seats, but the flight has
meanwhile been cancelled. -/
def flightCancelledC4 : Flight :=
  { flightOkC4 with flightStatus := flightStatusCancelled, version := 2 }

/-- Oracle where the flight is cancelled between the pre-check and the
locked re-read. -/
def oracleRecheckC4 : BookingOracle :=
  { getFlight1 := Except.ok flightOkC4,
    acquireLock := Except.ok true,
    getFlight2 := Except.ok flightCancelledC4,
    createBooking := Except.ok 7,
    updateSeats := Except.ok (),
    randBytes := [171] }

/-- Oracle for the C4 witness: the locked re-read sees zero seats
left. -/
def oracleRecheckGoneC4 : BookingOracle :=
  { getFlight1 := Except.ok flightOkC4,
    acquireLock := Except.ok true,
    getFlight2 := Except.ok { flightOkC4 with availableSeats := 0 },
    createBooking := Except.ok 7,
    updateSeats := Except.ok (),
    randBytes := [171] }

/-- Concrete booking request used by the C5 runs. -/
def reqConflictC5 : BookingRequest :=
  { flightID := 2, userID := 9, seatsBooked := 1,
    passengerDetails := [paxJohn] }

/-- Scenario-C flight: version 5, seats available. -/
def flightOkC5 : Flight :=
  { id := 2, source := "Mumbai", destination := "Delhi",
    availableSeats := 10, totalSeats := 100,
    flightStatus := flightStatusOnTime, price := 2500, version := 5 }

/-- Oracle where the conditional decrement reports the version
conflict after the Pending booking row (id 9) was created. -/
def oracleConflictC5 : BookingOracle :=
  { getFlight1 := Except.ok flightOkC5,
    acquireLock := Except.ok true,
    getFlight2 := Except.ok flightOkC5,
    createBooking := Except.ok 9,
    updateSeats := Except.error "optimistic lock failed or insufficient seats",
    randBytes := [] }

/-- Concrete booking request used by the C6 runs. -/
def reqSuccessC6 : BookingRequest :=
  { flightID := 1, userID := 123, seatsBooked := 2,
    passengerDetails := [paxJohn] }

/-- Oracle for a fully successful run creating booking 11 with random
bytes 0x00 0xff. -/
def oracleSuccessC6 : BookingOracle :=
  { getFlight1 := Except.ok flightScenarioA,
    acquireLock := Except.ok true,
    getFlight2 := Except.ok flightScenarioA,
    createBooking := Except.ok 11,
    updateSeats := Except.ok (),
    randBytes := [0, 255] }

/-- Flight supplied to CreateFlight with version 42 and an empty status,
used in the C10 witness. -/
def flightInputC10 : Flight :=
  { id := 0, source := "Delhi", destination := "Chennai",
    availableSeats := 90, totalSeats := 120, flightStatus := "",
    price := 2800, version := 42 }

/-- The row CreateFlight stores for `flightInputC10`. -/
def flightStoredC10 : Flight :=
  { flightInputC10 with flightStatus := flightStatusScheduled, version := 1 }

/-- A completed booking row stored under id 5. -/
def bookingRowCompleted : BookingRow :=
  { id := 5, flightID := 1, userID := 2, status := bookingStatusCompleted,
    paymentReferenceID := some "PAY-aa", bookingPrice := 2500,
    seatsBooked := 1, bookingMetadata := [] }

/-- Bookings table holding only the completed booking under id 5. -/
def bookingTableCompleted : BookingTable :=
  fun j => if j = 5 then some bookingRowCompleted else none

/-! ## Shared path lemmas for CreateBooking

Each lemma computes the exact return value and effect trace of one
post-acquisition path of the protocol, for a request and oracle that
reach the lock acquisition and acquire it. -/

/-- On the path where the locked re-read succeeds but shows fewer seats
than requested, CreateBooking returns the "Seats no longer available"
rejection and performs exactly: read, acquire, read, release. -/
theorem createBookingService_recheckFail_eq
    (req : BookingRequest) (o : BookingOracle) (flight flight2 : Flight)
    (hvalid : req.isValid = true)
    (hget : o.getFlight1 = Except.ok flight)
    (havail : ¬ flight.availableSeats < req.seatsBooked)
    (hstatus : ¬ (flight.flightStatus = flightStatusCancelled ∨
      flight.flightStatus = flightStatusDeparted))
    (hacq : o.acquireLock = Except.ok true)
    (hget2 : o.getFlight2 = Except.ok flight2)
    (hlow : flight2.availableSeats < req.seatsBooked) :
    createBookingService req o =
      (Except.ok { bookingID := 0, status := bookingStatusFailed,
                   paymentReferenceID := "",
                   message := "Seats no longer available" },
       [Effect.getFlight req.flightID,
        Effect.acquireLock req.getLockKey,
        Effect.getFlight req.flightID,
        Effect.releaseLock req.getLockKey]) := by
  simp only [createBookingService, hvalid, hget, hacq, hget2,
    Bool.true_eq_false, if_false, if_neg havail, if_neg hstatus,
    if_pos hlow]
  rfl

/-- On the path where the booking row is created (id `bid`) and the
conditional decrement then reports the conflict, CreateBooking marks the
booking Failed, returns the "Failed to reserve seats" business value,
and performs exactly: read, acquire, read, insert, decrement attempt,
status write, release. -/
theorem createBookingService_conflict_eq
    (req : BookingRequest) (o : BookingOracle) (flight flight2 : Flight)
    (bid : Int) (e : String)
    (hvalid : req.isValid = true)
    (hget : o.getFlight1 = Except.ok flight)
    (havail : ¬ flight.availableSeats < req.seatsBooked)
    (hstatus : ¬ (flight.flightStatus = flightStatusCancelled ∨
      flight.flightStatus = flightStatusDeparted))
    (hacq : o.acquireLock = Except.ok true)
    (hget2 : o.getFlight2 = Except.ok flight2)
    (havail2 : ¬ flight2.availableSeats < req.seatsBooked)
    (hcb : o.createBooking = Except.ok bid)
    (hupd : o.updateSeats = Except.error e) :
    createBookingService req o =
      (Except.ok { bookingID := bid, status := bookingStatusFailed,
                   paymentReferenceID := "",
                   message := "Failed to reserve seats" },
       [Effect.getFlight req.flightID,
        Effect.acquireLock req.getLockKey,
        Effect.getFlight req.flightID,
        Effect.createBooking (pendingBookingOf req flight2),
        Effect.updateAvailableSeats req.flightID req.seatsBooked
          flight2.version,
        Effect.updateBookingStatus bid bookingStatusFailed none,
        Effect.releaseLock req.getLockKey]) := by
  simp only [createBookingService, hvalid, hget, hacq, hget2, hcb, hupd,
    Bool.true_eq_false, if_false, if_neg havail, if_neg hstatus,
    if_neg havail2]
  rfl

/-- On the fully successful path (booking row `bid` created, decrement
succeeded), CreateBooking returns Pending with the generated payment
reference and performs exactly: read, acquire, read, insert, decrement,
cache invalidation, settlement dispatch, release. -/
theorem createBookingService_success_eq
    (req : BookingRequest) (o : BookingOracle) (flight flight2 : Flight)
    (bid : Int)
    (hvalid : req.isValid = true)
    (hget : o.getFlight1 = Except.ok flight)
    (havail : ¬ flight.availableSeats < req.seatsBooked)
    (hstatus : ¬ (flight.flightStatus = flightStatusCancelled ∨
      flight.flightStatus = flightStatusDeparted))
    (hacq : o.acquireLock = Except.ok true)
    (hget2 : o.getFlight2 = Except.ok flight2)
    (havail2 : ¬ flight2.availableSeats < req.seatsBooked)
    (hcb : o.createBooking = Except.ok bid)
    (hupd : o.updateSeats = Except.ok ()) :
    createBookingService req o =
      (Except.ok { bookingID := bid, status := bookingStatusPending,
                   paymentReferenceID :=
                     generatePaymentReferenceID o.randBytes,
                   message := "Booking created, processing payment" },
       [Effect.getFlight req.flightID,
        Effect.acquireLock req.getLockKey,
        Effect.getFlight req.flightID,
        Effect.createBooking (pendingBookingOf req flight2),
        Effect.updateAvailableSeats req.flightID req.seatsBooked
          flight2.version,
        Effect.deleteCachedSeats req.flightID,
        Effect.dispatchPayment bid (generatePaymentReferenceID o.randBytes)
          (flight2.price * (req.seatsBooked : Rat)),
        Effect.releaseLock req.getLockKey]) := by
  simp only [createBookingService, hvalid, hget, hacq, hget2, hcb, hupd,
    Bool.true_eq_false, if_false, if_neg havail, if_neg hstatus,
    if_neg havail2]
  rfl

/-- The Pending booking row CreateBooking constructs does not depend on
the flight status of the row read under the lock. -/
theorem pendingBookingOf_status_irrelevant (req : BookingRequest)
    (f : Flight) (s : String) :
    pendingBookingOf req { f with flightStatus := s } =
      pendingBookingOf req f := rfl

/-! ## C1 — conditional seat decrement -/

/-- C1: the conditional seat-decrement `UpdateAvailableSeats` succeeds
iff the flight exists, its available seats are at least the requested
quantity, and its version equals the expected version; on success the
row's available seats drop by exactly the quantity, its version becomes
expected + 1, and no other row changes (one atomic update); on any
mismatch it returns the one conflict error and writes nothing. -/
theorem updateAvailableSeats_spec (t : FlightTable) (flightID qty ver : Int) :
    ((∃ t2, updateAvailableSeats t flightID qty ver = Except.ok t2) ↔
      (∃ f, t flightID = some f ∧ f.version = ver ∧ qty ≤ f.availableSeats)) ∧
    (∀ t2 f, updateAvailableSeats t flightID qty ver = Except.ok t2 →
      t flightID = some f →
      t2 flightID = some { f with availableSeats := f.availableSeats - qty,
                                  version := ver + 1 } ∧
      (∀ j, j ≠ flightID → t2 j = t j)) ∧
    (∀ e, updateAvailableSeats t flightID qty ver = Except.error e →
      e = "optimistic lock failed or insufficient seats") := by
  cases ht : t flightID with
  | none =>
    refine ⟨⟨?_, ?_⟩, ?_, ?_⟩
    · rintro ⟨t2, h2⟩
      simp [updateAvailableSeats, ht] at h2
    · rintro ⟨f, hf, -⟩
      simp [ht] at hf
    · intro t2 f h2 hf
      simp [ht] at hf
    · intro e he
      simp only [updateAvailableSeats, ht] at he
      exact (Except.error.inj he).symm
  | some f =>
    by_cases hc : f.version = ver ∧ qty ≤ f.availableSeats
    · obtain ⟨hv, hs⟩ := hc
      have hrow : updateAvailableSeatsRow f qty ver =
          some { f with availableSeats := f.availableSeats - qty,
                        version := f.version + 1 } := by
        unfold updateAvailableSeatsRow
        rw [if_pos ⟨hv, hs⟩]
      have hok : updateAvailableSeats t flightID qty ver =
          Except.ok (fun j => if j = flightID then
            some { f with availableSeats := f.availableSeats - qty,
                          version := f.version + 1 }
            else t j) := by
        simp only [updateAvailableSeats, ht, hrow]
      refine ⟨⟨fun _ => ⟨f, rfl, hv, hs⟩, fun _ => ⟨_, hok⟩⟩, ?_, ?_⟩
      · intro t2 g h2 hg
        obtain rfl : f = g := Option.some.inj hg
        rw [hok] at h2
        obtain rfl := (Except.ok.inj h2).symm
        subst hv
        exact ⟨by simp, fun j hj => by simp [hj]⟩
      · intro e he
        rw [hok] at he
        exact absurd he (by simp)
    · have hrow : updateAvailableSeatsRow f qty ver = none := by
        unfold updateAvailableSeatsRow
        rw [if_neg hc]
      have herr : updateAvailableSeats t flightID qty ver =
          Except.error "optimistic lock failed or insufficient seats" := by
        simp only [updateAvailableSeats, ht, hrow]
      refine ⟨⟨?_, ?_⟩, ?_, ?_⟩
      · rintro ⟨t2, h2⟩
        rw [herr] at h2
        exact absurd h2 (by simp)
      · rintro ⟨g, hg, hv, hs⟩
        obtain rfl : f = g := Option.some.inj hg
        exact absurd ⟨hv, hs⟩ hc
      · intro t2 g h2 hg
        rw [herr] at h2
        exact absurd h2 (by simp)
      · intro e he
        rw [herr] at he
        exact (Except.error.inj he).symm

/-- Witness for C1: decrementing 2 seats at expected version 1 on the
scenario-A table succeeds. -/
theorem updateAvailableSeats_spec_witness :
    ∃ t2, updateAvailableSeats flightTableA 1 2 1 = Except.ok t2 :=
  (updateAvailableSeats_spec flightTableA 1 2 1).1.mpr
    ⟨flightScenarioA, rfl, rfl, by decide⟩

/-! ## C2 — inventory invariant over reachable flight states -/

/-- Counterexample to C2: a flight state with available_seats = -1 is
reachable through the public mutation operations — UpdateFlight
validates the upper bound (available ≤ total) but not the lower bound,
so a caller-supplied negative available-seat count is stored. -/
theorem reachableFlight_invariant_counterexample :
    ReachableFlight flightBadC2 ∧ flightBadC2.availableSeats < 0 := by
  refine ⟨?_, by decide⟩
  have h1 : createFlightService flightSeedC2 =
      Except.ok { flightSeedC2 with version := 1 } := by rfl
  have h2 : updateFlightService { flightSeedC2 with version := 1 }
      flightNegativeUpdateC2 = Except.ok flightBadC2 := by rfl
  exact ReachableFlight.update _ _ _
    (ReachableFlight.create flightSeedC2 _ h1) h2

/-- C2 amended: the invariant 0 ≤ available_seats ≤ total_seats holds
for every flight state reachable through the public mutation operations,
provided every UpdateFlight call supplies a non-negative available-seat
count and every seat-decrement call supplies a non-negative quantity —
preconditions the code itself does not enforce (see the
counterexample). -/
theorem reachableFlightChecked_invariant (g : Flight)
    (h : ReachableFlightChecked g) :
    0 ≤ g.availableSeats ∧ g.availableSeats ≤ g.totalSeats := by
  induction h with
  | create f g hc =>
    unfold createFlightService at hc
    split_ifs at hc with h1 h2 h3 h4
    · simp only [Except.ok.injEq] at hc
      subst hc
      push_neg at h1
      exact ⟨le_of_lt h1.2.2.1, le_of_not_lt h2⟩
    · simp only [Except.ok.injEq] at hc
      subst hc
      push_neg at h1
      exact ⟨le_of_lt h1.2.2.1, le_of_not_lt h2⟩
  | updateSeats f g qty ver hf hq hrow ih =>
    unfold updateAvailableSeatsRow at hrow
    split_ifs at hrow with hc
    simp only [Option.some.injEq] at hrow
    subst hrow
    obtain ⟨hv, hs⟩ := hc
    simp only
    omega
  | update f new g hf hnn hupd ih =>
    unfold updateFlightService at hupd
    split_ifs at hupd with h1 h2 h3 h4
    simp only [Except.ok.injEq] at hupd
    subst hupd
    exact ⟨hnn, le_of_not_lt h2⟩

/-- Witness for the amended C2: the invariant evaluated on a state
reached by a valid creation followed by a non-negative decrement. -/
theorem reachableFlightChecked_invariant_witness :
    0 ≤ ({ flightSeedC2 with availableSeats := 3, version := 2 } :
        Flight).availableSeats ∧
    ({ flightSeedC2 with availableSeats := 3, version := 2 } :
        Flight).availableSeats ≤
      ({ flightSeedC2 with availableSeats := 3, version := 2 } :
        Flight).totalSeats :=
  reachableFlightChecked_invariant _
    (ReachableFlightChecked.updateSeats { flightSeedC2 with version := 1 } _
      2 1
      (ReachableFlightChecked.create flightSeedC2 _ (by rfl))
      (by decide) (by rfl))

/-! ## C3 — the lock is released on every path after acquisition -/

/-- C3: in every CreateBooking execution that reaches the lock
acquisition (valid request, first read succeeded, pre-checks passed) and
in which acquisition returns true, the release of the same lock key is
among the effects performed before CreateBooking returns — on every exit
path after acquisition (re-read failure, re-check failure,
booking-creation error, decrement conflict, and success alike). -/
theorem createBooking_lock_release
    (req : BookingRequest) (o : BookingOracle) (flight : Flight)
    (hvalid : req.isValid = true)
    (hget : o.getFlight1 = Except.ok flight)
    (havail : ¬ flight.availableSeats < req.seatsBooked)
    (hstatus : ¬ (flight.flightStatus = flightStatusCancelled ∨
      flight.flightStatus = flightStatusDeparted))
    (hacq : o.acquireLock = Except.ok true) :
    Effect.releaseLock req.getLockKey ∈ (createBookingService req o).2 := by
  simp only [createBookingService, hvalid, hget, hacq, Bool.true_eq_false,
    if_false, if_neg havail, if_neg hstatus]
  rcases o.getFlight2 with e2 | flight2
  · simp
  · by_cases h2 : flight2.availableSeats < req.seatsBooked
    · simp [h2]
    · rcases o.createBooking with e3 | bid
      · simp [h2]
      · rcases o.updateSeats with e4 | u
        · simp [h2]
        · simp [h2]

/-- Witness for C3: on the concrete successful run the release of the
request's lock key appears in the effect trace. -/
theorem createBooking_lock_release_witness :
    Effect.releaseLock reqLockC3.getLockKey ∈
      (createBookingService reqLockC3 oracleLockC3).2 :=
  createBooking_lock_release reqLockC3 oracleLockC3 flightScenarioA
    (by decide) rfl (by decide) (by decide) rfl

/-! ## C4 — the re-check under the lock -/

/-- Counterexample to C4: the re-read under the lock does not repeat the
status check — with the flight cancelled at the locked re-read (but with
seats available), CreateBooking still creates a Pending booking and
returns success instead of the fast-path rejection. -/
theorem createBooking_no_status_recheck_counterexample :
    oracleRecheckC4.getFlight2 = Except.ok flightCancelledC4 ∧
    flightCancelledC4.flightStatus = flightStatusCancelled ∧
    (createBookingService reqRecheckC4 oracleRecheckC4).1 =
      Except.ok { bookingID := 7, status := bookingStatusPending,
                  paymentReferenceID := "PAY-ab",
                  message := "Booking created, processing payment" } ∧
    Effect.createBooking (pendingBookingOf reqRecheckC4 flightCancelledC4) ∈
      (createBookingService reqRecheckC4 oracleRecheckC4).2 := by
  rw [createBookingService_success_eq reqRecheckC4 oracleRecheckC4
    flightOkC4 flightCancelledC4 7
    (by decide) rfl (by decide) (by decide) rfl rfl (by decide) rfl rfl]
  exact ⟨rfl, rfl, rfl, by simp⟩

/-- C4 amended: after acquiring the lock the engine re-reads the flight
but re-applies only the availability check — the flight status read
under the lock does not influence the outcome at all — and when the
availability re-check fails it returns the fast-path rejection
"Seats no longer available" without creating a booking, with the lock
released. -/
theorem createBooking_recheck_availability_only
    (req : BookingRequest) (o : BookingOracle) (flight flight2 : Flight)
    (hvalid : req.isValid = true)
    (hget : o.getFlight1 = Except.ok flight)
    (havail : ¬ flight.availableSeats < req.seatsBooked)
    (hstatus : ¬ (flight.flightStatus = flightStatusCancelled ∨
      flight.flightStatus = flightStatusDeparted))
    (hacq : o.acquireLock = Except.ok true)
    (hget2 : o.getFlight2 = Except.ok flight2) :
    (∀ s, createBookingService req
        { o with getFlight2 :=
            Except.ok { flight2 with flightStatus := s } } =
      createBookingService req o) ∧
    (flight2.availableSeats < req.seatsBooked →
      (createBookingService req o).1 =
        Except.ok { bookingID := 0, status := bookingStatusFailed,
                    paymentReferenceID := "",
                    message := "Seats no longer available" } ∧
      Effect.releaseLock req.getLockKey ∈ (createBookingService req o).2 ∧
      ∀ b, ¬ Effect.createBooking b ∈ (createBookingService req o).2) := by
  constructor
  · intro s
    simp only [createBookingService, hvalid, hget, hacq, hget2,
      Bool.true_eq_false, if_false, if_neg havail, if_neg hstatus,
      pendingBookingOf_status_irrelevant]
  · intro hlow
    rw [createBookingService_recheckFail_eq req o flight flight2
      hvalid hget havail hstatus hacq hget2 hlow]
    refine ⟨rfl, by simp, ?_⟩
    intro b
    simp

/-- Witness for the amended C4: with seats gone at the locked re-read,
the concrete run returns the "Seats no longer available" rejection and
creates no booking. -/
theorem createBooking_recheck_availability_only_witness :
    (createBookingService reqRecheckC4 oracleRecheckGoneC4).1 =
      Except.ok { bookingID := 0, status := bookingStatusFailed,
                  paymentReferenceID := "",
                  message := "Seats no longer available" } ∧
    Effect.releaseLock reqRecheckC4.getLockKey ∈
      (createBookingService reqRecheckC4 oracleRecheckGoneC4).2 ∧
    ∀ b, ¬ Effect.createBooking b ∈
      (createBookingService reqRecheckC4 oracleRecheckGoneC4).2 :=
  (createBooking_recheck_availability_only reqRecheckC4 oracleRecheckGoneC4
    flightOkC4 { flightOkC4 with availableSeats := 0 }
    (by decide) rfl (by decide) (by decide) rfl rfl).2 (by decide)

/-! ## C5 — behaviour on decrement conflict after the row exists -/

/-- Counterexample to C5: on the decrement-conflict path the business
rejection's message is "Failed to reserve seats", not the
"seats no longer available" the claim states (that text is the message
of the pre-decrement availability re-check). -/
theorem decrement_conflict_message_counterexample :
    oracleConflictC5.updateSeats =
      Except.error "optimistic lock failed or insufficient seats" ∧
    (createBookingService reqConflictC5 oracleConflictC5).1 =
      Except.ok { bookingID := 9, status := bookingStatusFailed,
                  paymentReferenceID := "",
                  message := "Failed to reserve seats" } ∧
    ("Failed to reserve seats" : String) ≠ "seats no longer available" ∧
    ("Failed to reserve seats" : String) ≠ "Seats no longer available" := by
  rw [createBookingService_conflict_eq reqConflictC5 oracleConflictC5
    flightOkC5 flightOkC5 9 "optimistic lock failed or insufficient seats"
    (by decide) rfl (by decide) (by decide) rfl rfl (by decide) rfl rfl]
  exact ⟨rfl, rfl, by decide, by decide⟩

/-- C5 amended: when the conditional decrement reports a conflict after
the Pending booking row (id `bid`) was created, the engine attempts to
transition that booking to Failed and returns — as a response value, not
an error — the business rejection whose message is
"Failed to reserve seats", leaving the created booking record in the
trace as an audit trail. -/
theorem decrement_conflict_marks_booking_failed
    (req : BookingRequest) (o : BookingOracle) (flight flight2 : Flight)
    (bid : Int) (e : String)
    (hvalid : req.isValid = true)
    (hget : o.getFlight1 = Except.ok flight)
    (havail : ¬ flight.availableSeats < req.seatsBooked)
    (hstatus : ¬ (flight.flightStatus = flightStatusCancelled ∨
      flight.flightStatus = flightStatusDeparted))
    (hacq : o.acquireLock = Except.ok true)
    (hget2 : o.getFlight2 = Except.ok flight2)
    (havail2 : ¬ flight2.availableSeats < req.seatsBooked)
    (hcb : o.createBooking = Except.ok bid)
    (hupd : o.updateSeats = Except.error e) :
    (createBookingService req o).1 =
      Except.ok { bookingID := bid, status := bookingStatusFailed,
                  paymentReferenceID := "",
                  message := "Failed to reserve seats" } ∧
    Effect.updateBookingStatus bid bookingStatusFailed none ∈
      (createBookingService req o).2 ∧
    Effect.createBooking (pendingBookingOf req flight2) ∈
      (createBookingService req o).2 ∧
    (pendingBookingOf req flight2).status = bookingStatusPending := by
  rw [createBookingService_conflict_eq req o flight flight2 bid e
    hvalid hget havail hstatus hacq hget2 havail2 hcb hupd]
  exact ⟨rfl, by simp, by simp, rfl⟩

/-- Witness for the amended C5: the concrete conflict run marks booking
9 Failed and returns the business rejection. -/
theorem decrement_conflict_marks_booking_failed_witness :
    (createBookingService reqConflictC5 oracleConflictC5).1 =
      Except.ok { bookingID := 9, status := bookingStatusFailed,
                  paymentReferenceID := "",
                  message := "Failed to reserve seats" } ∧
    Effect.updateBookingStatus 9 bookingStatusFailed none ∈
      (createBookingService reqConflictC5 oracleConflictC5).2 ∧
    Effect.createBooking (pendingBookingOf reqConflictC5 flightOkC5) ∈
      (createBookingService reqConflictC5 oracleConflictC5).2 ∧
    (pendingBookingOf reqConflictC5 flightOkC5).status =
      bookingStatusPending :=
  decrement_conflict_marks_booking_failed reqConflictC5 oracleConflictC5
    flightOkC5 flightOkC5 9 "optimistic lock failed or insufficient seats"
    (by decide) rfl (by decide) (by decide) rfl rfl (by decide) rfl rfl

/-! ## C6 — the settlement reference and the Pending row -/

/-- Counterexample to C6: on a fully successful reservation the Booking
row is created in Pending state with an EMPTY payment-reference column —
the settlement reference is not assigned at the moment of creation; it
is generated only later (after the decrement) and appears only in the
response. -/
theorem pending_row_without_reference_counterexample :
    Effect.createBooking (pendingBookingOf reqSuccessC6 flightScenarioA) ∈
      (createBookingService reqSuccessC6 oracleSuccessC6).2 ∧
    (pendingBookingOf reqSuccessC6 flightScenarioA).status =
      bookingStatusPending ∧
    (pendingBookingOf reqSuccessC6 flightScenarioA).paymentReferenceID =
      "" ∧
    (createBookingService reqSuccessC6 oracleSuccessC6).1 =
      Except.ok { bookingID := 11, status := bookingStatusPending,
                  paymentReferenceID := "PAY-00ff",
                  message := "Booking created, processing payment" } ∧
    ("" : String) ≠ "PAY-00ff" ∧
    (∀ b, Effect.createBooking b ∈
        (createBookingService reqSuccessC6 oracleSuccessC6).2 →
      b.paymentReferenceID = "") := by
  rw [createBookingService_success_eq reqSuccessC6 oracleSuccessC6
    flightScenarioA flightScenarioA 11
    (by decide) rfl (by decide) (by decide) rfl rfl (by decide) rfl rfl]
  refine ⟨by simp, rfl, rfl, rfl, by decide, ?_⟩
  intro b hb
  simp only [List.mem_cons, List.not_mem_nil, or_false] at hb
  rcases hb with h | h | h | h | h | h | h | h <;> first
    | (cases h; rfl)
    | exact absurd h (by simp)

/-- C6 amended: every successful reservation creates the Booking row in
Pending state with an empty settlement (payment) reference; the fresh
reference is generated only after the successful seat decrement, is
returned in the Pending response, and is handed to the asynchronous
settlement dispatch — it is never stored on the row at creation time. -/
theorem pending_row_reference_generated_after_decrement
    (req : BookingRequest) (o : BookingOracle) (flight flight2 : Flight)
    (bid : Int)
    (hvalid : req.isValid = true)
    (hget : o.getFlight1 = Except.ok flight)
    (havail : ¬ flight.availableSeats < req.seatsBooked)
    (hstatus : ¬ (flight.flightStatus = flightStatusCancelled ∨
      flight.flightStatus = flightStatusDeparted))
    (hacq : o.acquireLock = Except.ok true)
    (hget2 : o.getFlight2 = Except.ok flight2)
    (havail2 : ¬ flight2.availableSeats < req.seatsBooked)
    (hcb : o.createBooking = Except.ok bid)
    (hupd : o.updateSeats = Except.ok ()) :
    Effect.createBooking (pendingBookingOf req flight2) ∈
      (createBookingService req o).2 ∧
    (pendingBookingOf req flight2).status = bookingStatusPending ∧
    (pendingBookingOf req flight2).paymentReferenceID = "" ∧
    (createBookingService req o).1 =
      Except.ok { bookingID := bid, status := bookingStatusPending,
                  paymentReferenceID :=
                    generatePaymentReferenceID o.randBytes,
                  message := "Booking created, processing payment" } ∧
    Effect.dispatchPayment bid (generatePaymentReferenceID o.randBytes)
        (flight2.price * (req.seatsBooked : Rat)) ∈
      (createBookingService req o).2 := by
  rw [createBookingService_success_eq req o flight flight2 bid
    hvalid hget havail hstatus hacq hget2 havail2 hcb hupd]
  exact ⟨by simp, rfl, rfl, rfl, by simp⟩

/-- Witness for the amended C6: the concrete successful run creates the
Pending row with an empty reference and returns the generated one. -/
theorem pending_row_reference_generated_after_decrement_witness :
    Effect.createBooking (pendingBookingOf reqSuccessC6 flightScenarioA) ∈
      (createBookingService reqSuccessC6 oracleSuccessC6).2 ∧
    (pendingBookingOf reqSuccessC6 flightScenarioA).status =
      bookingStatusPending ∧
    (pendingBookingOf reqSuccessC6 flightScenarioA).paymentReferenceID =
      "" ∧
    (createBookingService reqSuccessC6 oracleSuccessC6).1 =
      Except.ok { bookingID := 11, status := bookingStatusPending,
                  paymentReferenceID :=
                    generatePaymentReferenceID oracleSuccessC6.randBytes,
                  message := "Booking created, processing payment" } ∧
    Effect.dispatchPayment 11
        (generatePaymentReferenceID oracleSuccessC6.randBytes)
        (flightScenarioA.price * ((reqSuccessC6.seatsBooked : Int) : Rat)) ∈
      (createBookingService reqSuccessC6 oracleSuccessC6).2 :=
  pending_row_reference_generated_after_decrement reqSuccessC6
    oracleSuccessC6 flightScenarioA flightScenarioA 11
    (by decide) rfl (by decide) (by decide) rfl rfl (by decide) rfl rfl

/-! ## C7 — the seat-consumption event the settlement worker emits -/

/-- C7 (code evaluated at the failing input): for a successful payment
outcome on booking 7 the worker does transition the booking to Completed
and does emit a seat-consumption event followed by a settlement-outcome
event — but the seat event's payload carries flight id 0 and quantity 0
(hard-coded placeholders), not the flight id and seat quantity of the
booking; the worker is not even given them. -/
theorem processPayment_success_zeroed_seat_event :
    processPaymentAsync 7 "PAY-ab" 250 true (Except.ok ()) =
      [Effect.sendSeatUpdateEvent
         { flightID := 0, seatsBooked := 0, bookingID := 7 },
       Effect.updateBookingStatus 7 bookingStatusCompleted (some "PAY-ab"),
       Effect.sendPaymentEvent
         { bookingID := 7, paymentReferenceID := "PAY-ab", amount := 250,
           status := bookingStatusCompleted }] ∧
    (∀ bid ref amt,
      processPaymentAsync bid ref amt true (Except.ok ()) =
        [Effect.sendSeatUpdateEvent
           { flightID := 0, seatsBooked := 0, bookingID := bid },
         Effect.updateBookingStatus bid bookingStatusCompleted (some ref),
         Effect.sendPaymentEvent
           { bookingID := bid, paymentReferenceID := ref, amount := amt,
             status := bookingStatusCompleted }]) :=
  ⟨rfl, fun _ _ _ => rfl⟩

/-! ## C8 — terminal booking states and UpdateBookingStatus -/

/-- Counterexample to C8: a booking already in the terminal state
Completed is not protected — `UpdateBookingStatus` succeeds on it and
overwrites the stored status (here back to pending, also clearing the
payment reference to NULL), instead of rejecting the transition. -/
theorem updateBookingStatus_terminal_counterexample :
    bookingRowCompleted.status = bookingStatusCompleted ∧
    ∃ t2, updateBookingStatus bookingTableCompleted 5 bookingStatusPending
        none = Except.ok t2 ∧
      t2 5 = some { bookingRowCompleted with
                    status := bookingStatusPending
                    paymentReferenceID := none } := by
  refine ⟨rfl, fun j => if j = 5 then
    some { bookingRowCompleted with
           status := bookingStatusPending
           paymentReferenceID := none }
    else bookingTableCompleted j, rfl, by decide⟩

/-- C8 amended: `UpdateBookingStatus` is an unconditional overwrite — it
succeeds iff a booking with the given id exists, regardless of the
stored status (terminal included), replacing the status and
payment-reference columns and touching no other row; it fails (with
"booking not found") only when the id is absent. -/
theorem updateBookingStatus_spec (t : BookingTable) (bookingID : Int)
    (status : String) (ref : Option String) :
    ((∃ t2, updateBookingStatus t bookingID status ref = Except.ok t2) ↔
      (∃ b, t bookingID = some b)) ∧
    (∀ t2 b, updateBookingStatus t bookingID status ref = Except.ok t2 →
      t bookingID = some b →
      t2 bookingID = some { b with status := status,
                                   paymentReferenceID := ref } ∧
      (∀ j, j ≠ bookingID → t2 j = t j)) ∧
    (∀ e, updateBookingStatus t bookingID status ref = Except.error e →
      e = "booking not found" ∧ t bookingID = none) := by
  cases ht : t bookingID with
  | none =>
    refine ⟨⟨?_, ?_⟩, ?_, ?_⟩
    · rintro ⟨t2, h2⟩
      simp [updateBookingStatus, ht] at h2
    · rintro ⟨b, hb⟩
      simp [ht] at hb
    · intro t2 b h2 hb
      simp [ht] at hb
    · intro e he
      simp only [updateBookingStatus, ht] at he
      exact ⟨(Except.error.inj he).symm, rfl⟩
  | some b =>
    have hok : updateBookingStatus t bookingID status ref =
        Except.ok (fun j => if j = bookingID then
          some { b with status := status, paymentReferenceID := ref }
          else t j) := by
      simp only [updateBookingStatus, ht]
    refine ⟨⟨fun _ => ⟨b, rfl⟩, fun _ => ⟨_, hok⟩⟩, ?_, ?_⟩
    · intro t2 c h2 hc
      obtain rfl : b = c := Option.some.inj hc
      rw [hok] at h2
      obtain rfl := (Except.ok.inj h2).symm
      exact ⟨by simp, fun j hj => by simp [hj]⟩
    · intro e he
      rw [hok] at he
      exact absurd he (by simp)

/-- Witness for the amended C8: on the concrete completed-booking table,
the overwrite to failed succeeds. -/
theorem updateBookingStatus_spec_witness :
    ∃ t2, updateBookingStatus bookingTableCompleted 5 bookingStatusFailed
      (some "PAY-bb") = Except.ok t2 :=
  (updateBookingStatus_spec bookingTableCompleted 5 bookingStatusFailed
    (some "PAY-bb")).1.mpr ⟨bookingRowCompleted, rfl⟩

/-! ## C9 — the lock-key derivation collides -/

/-- C9: `GetLockKey` is not injective — two distinct positive flight ids
(here 2 and 2 + 2^32, which the narrowing rune conversion identifies)
produce the same lock key string, so two different flights contend on
one lock. -/
theorem getLockKey_collision :
    ∃ a b : Int, 0 < a ∧ 0 < b ∧ a ≠ b ∧
      BookingRequest.getLockKey
        { flightID := a, userID := 1, seatsBooked := 1,
          passengerDetails := [] } =
      BookingRequest.getLockKey
        { flightID := b, userID := 1, seatsBooked := 1,
          passengerDetails := [] } :=
  ⟨2, 2 + 2 ^ 32, by decide, by decide, by decide, by decide⟩

/-! ## C10 — CreateFlight forces version 1 and defaults the status -/

/-- C10: every flight accepted by `CreateFlight` is stored with
`Version = 1` regardless of the version supplied by the caller, and with
status `scheduled` whenever the caller supplied an empty status. -/
theorem createFlight_version_and_default_status (f g : Flight)
    (h : createFlightService f = Except.ok g) :
    g.version = 1 ∧
      (f.flightStatus = "" → g.flightStatus = flightStatusScheduled) := by
  unfold createFlightService at h
  split_ifs at h with h1 h2 h3 h4
  · simp only [Except.ok.injEq] at h
    subst h
    exact ⟨rfl, fun _ => rfl⟩
  · simp only [Except.ok.injEq] at h
    subst h
    exact ⟨rfl, fun hc => absurd hc h4⟩

/-- Witness for C10: a concrete flight supplied with version 42 and an
empty status is accepted and stored with version 1 and status
scheduled. -/
theorem createFlight_version_and_default_status_witness :
    createFlightService flightInputC10 = Except.ok flightStoredC10 ∧
    flightStoredC10.version = 1 ∧
    flightStoredC10.flightStatus = flightStatusScheduled :=
  ⟨by rfl,
   (createFlight_version_and_default_status flightInputC10 flightStoredC10
     (by rfl)).1,
   (createFlight_version_and_default_status flightInputC10 flightStoredC10
     (by rfl)).2 rfl⟩

end AirlineBooking
